import Mathlib

/-!
Shallow embedding of the dispatch/aggregation core of the repository:
`src/backend/orchestrator.py` (Dispatcher) and `src/frontend/app.py` (Relay).

The Python modules are translated definition by definition:
* `AgentResult`, `run_single_agent`, `orchestrate_agents` and the two
  Dispatcher endpoints come from `orchestrator.py`;
* `submit_prompt` and `submit_prompt_stream` come from `app.py`.

External effects are made explicit parameters: the SDK event stream a worker
consumes (or the exception that aborts it) becomes an `AgentBehavior`, the
completion order of the workers becomes an `arrival` permutation, the module
global `ANTHROPIC_API_KEY` becomes an argument, and the Relay's network call
becomes a `BackendOutcome`.
-/

namespace ClaudeMcp

/-- Shape of the `details` dict attached to an `AgentResult`.  Each branch of
`run_single_agent` builds a one-key dict; the branches are enumerated here. -/
inductive Details where
  | result (payload : String)
  | error (payload : String)
  | subtype (s : String)
  | messages (msgs : List String)
  | errorType (s : String)
deriving DecidableEq

/-- Result from a single agent execution (`orchestrator.py`, class `AgentResult`). -/
structure AgentResult where
  agent_id : Nat
  status : String
  message : String
  details : Details
deriving DecidableEq

/-- Messages yielded by the SDK `query` iterator, as dispatched on by
`run_single_agent`: `ResultMessage` (with `subtype` and `result` payload),
`TextMessage`, and any other message type (logged and skipped). -/
inductive SdkMessage where
  | resultMessage (subtype : String) (result : String)
  | textMessage (content : String)
  | otherMessage (kind : String)
deriving DecidableEq

/-- What happens to one worker: the SDK import fails (`except ImportError`),
an uncaught exception is raised during execution (`except Exception`), or the
`query` iterator yields a finite sequence of messages. -/
inductive AgentBehavior where
  | importError (e : String)
  | raises (e : String) (exnType : String)
  | events (msgs : List SdkMessage)
deriving DecidableEq

/-- The `async for message in query(...)` loop of `run_single_agent`:
`collected` is the `collected_messages` accumulator.  The loop returns on the
first `ResultMessage`; text messages are appended; the fallback after the loop
reports success with the collected texts. -/
def processMessages (agent_id : Nat) (collected : List String) :
    List SdkMessage → AgentResult
  | [] => ⟨agent_id, "success", "Task completed", .messages collected⟩
  | .resultMessage st r :: _ =>
    if st = "success" then
      ⟨agent_id, "success", "Task completed successfully", .result r⟩
    else if st = "error" then
      ⟨agent_id, "error", "Task failed: " ++ r, .error r⟩
    else
      ⟨agent_id, "unknown", r, .subtype st⟩
  | .textMessage c :: rest => processMessages agent_id (collected ++ [c]) rest
  | .otherMessage _ :: rest => processMessages agent_id collected rest

/-- The whole of `run_single_agent`: the try/except wrapper around the event
loop.  Every path constructs exactly one `AgentResult` and puts it on the
results queue before returning. -/
def run_single_agent (agent_id : Nat) (beh : AgentBehavior) : AgentResult :=
  match beh with
  | .importError e =>
    ⟨agent_id, "error", "Claude Agent SDK not available: " ++ e, .errorType "import_error"⟩
  | .raises e ty =>
    ⟨agent_id, "error", "Unexpected error: " ++ e, .errorType ty⟩
  | .events msgs => processMessages agent_id [] msgs

/-- The `results.sort(key=lambda r: r.agent_id)` step of `orchestrate_agents`
(Python `list.sort` is a stable sort; `mergeSort` is as well). -/
def sortResults (rs : List AgentResult) : List AgentResult :=
  rs.mergeSort (fun a b => decide (a.agent_id ≤ b.agent_id))

/-- `orchestrate_agents`: workers `1 .. agent_count` each put exactly one
result on the queue; `arrival` is the completion order in which the queue is
drained (a permutation of `1 .. agent_count`); finally the collected results
are sorted by `agent_id`. -/
def orchestrate_agents (behaviors : Nat → AgentBehavior) (agent_count : Nat)
    (arrival : List Nat) : List AgentResult :=
  sortResults (arrival.map (fun i => run_single_agent i (behaviors i)))

/-- First `ResultMessage` of an event stream, with its subtype and payload —
the terminal event of the worker, after which no further events count. -/
def firstResultMessage : List SdkMessage → Option (String × String)
  | [] => none
  | .resultMessage st r :: _ => some (st, r)
  | .textMessage _ :: rest => firstResultMessage rest
  | .otherMessage _ :: rest => firstResultMessage rest

/-- Text-message contents preceding the first `ResultMessage` (all of them if
the stream has no terminal event). -/
def textsBefore : List SdkMessage → List String
  | [] => []
  | .resultMessage _ _ :: _ => []
  | .textMessage c :: rest => c :: textsBefore rest
  | .otherMessage _ :: rest => textsBefore rest

/-- Scalar JSON values a request body field can hold.  Composite values
(arrays, objects) behave like `null` under `int()` (TypeError) and floats are
outside the model; the claims' inputs are covered by these four. -/
inductive JValue where
  | jNull
  | jBool (b : Bool)
  | jInt (n : Int)
  | jStr (s : String)
deriving DecidableEq

/-- Python `str.strip()` with no argument: remove leading and trailing
whitespace.  (Stated over the character list so that it evaluates by kernel
reduction; non-ASCII whitespace stripped by CPython is outside the model.) -/
def pyStrip (s : String) : String :=
  ⟨((s.data.dropWhile Char.isWhitespace).reverse.dropWhile Char.isWhitespace).reverse⟩

/-- Digits of a decimal string, Python `int(str)` style: optional surrounding
whitespace, optional sign, then a non-empty run of ASCII digits.  (Underscore
digit separators and non-ASCII digits accepted by CPython are outside the
model.) -/
def parseDigits (cs : List Char) : Option Nat :=
  if cs = [] then none
  else if cs.all Char.isDigit then
    some (cs.foldl (fun acc c => 10 * acc + (c.toNat - 48)) 0)
  else none

/-- Python `int(s)` for a string argument: `None` models a `ValueError`. -/
def pyIntOfString (s : String) : Option Int :=
  match (pyStrip s).data with
  | '+' :: rest => (parseDigits rest).map Int.ofNat
  | '-' :: rest => (parseDigits rest).map (fun n => -(Int.ofNat n))
  | cs => (parseDigits cs).map Int.ofNat

/-- Python `int(x)` as applied by the endpoints to `agent_count`: ints pass
through, bools coerce to 0/1, numeric strings parse, everything else raises
(`None` models the ValueError/TypeError caught by the endpoints). -/
def pyInt : JValue → Option Int
  | .jInt n => some n
  | .jBool b => some (if b then 1 else 0)
  | .jStr s => pyIntOfString s
  | .jNull => none

/-- JSON request body as read by all four POST endpoints: the `prompt` and
`agent_count` fields, each possibly absent.  The model restricts `prompt` to
JSON strings (a non-string prompt raises `AttributeError` at `.strip()`,
outside every claim's scope); the body as a whole may be absent
(`request.get_json()` returning `None`). -/
structure RequestData where
  prompt : Option String
  agent_count : Option JValue
deriving DecidableEq

/-- Outcome of an endpoint's validation prologue: an HTTP error response
returned before any worker is launched, or the decision to dispatch with the
stripped prompt and coerced agent count. -/
inductive DispatchDecision where
  | reject (status : Nat) (errorMsg : String)
  | dispatch (prompt : String) (agent_count : Int)
deriving DecidableEq

/-- True iff a decision launches workers. -/
def DispatchDecision.isDispatch : DispatchDecision → Bool
  | .dispatch _ _ => true
  | .reject _ _ => false

/-- Validation prologue of the synchronous Dispatcher endpoint
(`orchestrator.py`, route `/api/orchestrate`): missing body, empty stripped
prompt, uncoercible or out-of-range agent count each give a 400; a missing
`ANTHROPIC_API_KEY` (the module global, passed here as an argument) gives a
500; otherwise the orchestration runs. -/
def orchestrate (anthropic_api_key : String) (data : Option RequestData) :
    DispatchDecision :=
  match data with
  | none => .reject 400 "No data provided"
  | some d =>
    let prompt := pyStrip (d.prompt.getD "")
    let agent_count := d.agent_count.getD (.jInt 1)
    if prompt = "" then .reject 400 "Prompt is required"
    else
      match pyInt agent_count with
      | none => .reject 400 "Invalid agent count"
      | some k =>
        if k < 1 ∨ k > 10 then .reject 400 "Agent count must be between 1 and 10"
        else if anthropic_api_key = "" then
          .reject 500 "ANTHROPIC_API_KEY not configured"
        else .dispatch prompt k

/-- Validation prologue of the streaming Dispatcher endpoint
(`orchestrator.py`, route `/api/orchestrate/stream`).  It duplicates the
body/prompt/count checks of `orchestrate` but never consults
`anthropic_api_key` — the source has no credential check on this path. -/
def orchestrate_stream (anthropic_api_key : String) (data : Option RequestData) :
    DispatchDecision :=
  match data with
  | none => .reject 400 "No data provided"
  | some d =>
    let prompt := pyStrip (d.prompt.getD "")
    let agent_count := d.agent_count.getD (.jInt 1)
    if prompt = "" then .reject 400 "Prompt is required"
    else
      match pyInt agent_count with
      | none => .reject 400 "Invalid agent count"
      | some k =>
        if k < 1 ∨ k > 10 then .reject 400 "Agent count must be between 1 and 10"
        else .dispatch prompt k

/-- Outcome of the Relay's `requests.post` to the Dispatcher: a response with
a status code and body, `requests.exceptions.Timeout`,
`requests.exceptions.ConnectionError`, or any other exception. -/
inductive BackendOutcome where
  | response (status : Nat) (body : String)
  | timeout
  | connectionError
  | otherError (e : String)
deriving DecidableEq

/-- Response of the Relay's non-streaming endpoint: a local validation error
returned before contacting the backend, a pass-through of the backend's
response, or a transport error mapped after the backend call failed. -/
inductive RelayResult where
  | localError (status : Nat) (errorMsg : String)
  | forwarded (status : Nat) (body : String)
  | transportError (status : Nat) (errorMsg : String)
deriving DecidableEq

/-- The Relay endpoint `submit_prompt` (`app.py`, route `/api/submit`): the
same validation prologue as the Dispatcher (duplicated defensively in the
source), then one forward to the backend with Timeout mapped to 504,
ConnectionError to 503 and any other exception to 500, none retried. -/
def submit_prompt (data : Option RequestData) (backend : BackendOutcome) :
    RelayResult :=
  match data with
  | none => .localError 400 "No data provided"
  | some d =>
    let prompt := pyStrip (d.prompt.getD "")
    let agent_count := d.agent_count.getD (.jInt 1)
    if prompt = "" then .localError 400 "Prompt is required"
    else
      match pyInt agent_count with
      | none => .localError 400 "Invalid agent count"
      | some k =>
        if k < 1 ∨ k > 10 then .localError 400 "Agent count must be between 1 and 10"
        else
          match backend with
          | .response s b => .forwarded s b
          | .timeout => .transportError 504 "Request timed out"
          | .connectionError => .transportError 503 "Could not connect to backend orchestrator"
          | .otherError e => .transportError 500 ("Unexpected error: " ++ e)

/-- Validation prologue of the Relay's streaming endpoint
(`app.py`, route `/api/submit/stream`); on `dispatch` the generator contacts
the backend stream and re-frames its lines as SSE (external I/O beyond the
decision modelled here). -/
def submit_prompt_stream (data : Option RequestData) : DispatchDecision :=
  match data with
  | none => .reject 400 "No data provided"
  | some d =>
    let prompt := pyStrip (d.prompt.getD "")
    let agent_count := d.agent_count.getD (.jInt 1)
    if prompt = "" then .reject 400 "Prompt is required"
    else
      match pyInt agent_count with
      | none => .reject 400 "Invalid agent count"
      | some k =>
        if k < 1 ∨ k > 10 then .reject 400 "Agent count must be between 1 and 10"
        else .dispatch prompt k

/-- One newline-delimited JSON event of the streaming endpoint's `generate`
generator, tagged by its `type` field. -/
inductive StreamEvent where
  | start (agent_count : Nat) (promptPreview : String)
  | agentResult (data : AgentResult)
  | complete (total_agents : Nat)
  | error (e : String)
deriving DecidableEq

/-- The `while completed < agent_count and thread.is_alive()` polling loop of
`generate`.  Each element of `polls` is one `results_queue.get(timeout=1)`
outcome (`some r` — a result arrives and is emitted; `none` — the get times
out and the loop retries); the list ending models the worker thread no longer
being alive.  The loop also stops once `completed` reaches `agent_count`. -/
def streamLoop (agent_count : Nat) (completed : Nat) :
    List (Option AgentResult) → List StreamEvent
  | [] => []
  | p :: rest =>
    if completed < agent_count then
      match p with
      | some r => .agentResult r :: streamLoop agent_count (completed + 1) rest
      | none => streamLoop agent_count completed rest
    else []

/-- The body of `generate` on the fault-free path: the `start` event (with
the prompt truncated to 100 characters), the polling loop, the post-join
drain of the queue (`drained`), and the final `complete` event carrying the
requested `agent_count`. -/
def generateEvents (prompt : String) (agent_count : Nat)
    (polls : List (Option AgentResult)) (drained : List AgentResult) :
    List StreamEvent :=
  .start agent_count (prompt.take 100) ::
    (streamLoop agent_count 0 polls ++ drained.map .agentResult ++
      [.complete agent_count])

/-- The `except Exception` wrapper of `generate`: an exception raised after
`k` events have been yielded leaves those events in the stream and appends a
single `error` event. -/
def generateEventsFaulted (prompt : String) (agent_count : Nat)
    (polls : List (Option AgentResult)) (drained : List AgentResult)
    (k : Nat) (e : String) : List StreamEvent :=
  (generateEvents prompt agent_count polls drained).take k ++ [.error e]

/-- Discriminator tests on stream events. -/
def StreamEvent.isStart : StreamEvent → Bool
  | .start _ _ => true
  | _ => false

/-- True on `agent_result` events. -/
def StreamEvent.isAgentResult : StreamEvent → Bool
  | .agentResult _ => true
  | _ => false

/-- True on `complete` events. -/
def StreamEvent.isComplete : StreamEvent → Bool
  | .complete _ => true
  | _ => false

/-- True on `error` events. -/
def StreamEvent.isError : StreamEvent → Bool
  | .error _ => true
  | _ => false

/-- Number of results the queue actually delivers to the polling loop. -/
def countSome (polls : List (Option AgentResult)) : Nat :=
  polls.countP (fun p => p.isSome)

/-- Agent counts the endpoints reject: values `int()` cannot coerce, and
coerced values outside `[1, 10]`. -/
def badCount (c : JValue) : Bool :=
  match pyInt c with
  | none => true
  | some k => decide (k < 1 ∨ 10 < k)

/-- Behaviors that are worker failures: a setup failure (SDK import error) or
an uncaught exception during execution. -/
def AgentBehavior.isFailure : AgentBehavior → Bool
  | .importError _ => true
  | .raises _ _ => true
  | .events _ => false

/-! ### Basic lemmas about a single worker -/

lemma processMessages_agent_id (i : Nat) (msgs : List SdkMessage) (acc : List String) :
    (processMessages i acc msgs).agent_id = i := by
  induction msgs generalizing acc with
  | nil => rfl
  | cons m rest ih =>
    cases m with
    | resultMessage st r =>
      simp only [processMessages]
      split <;> [rfl; skip]
      split <;> rfl
    | textMessage c => exact ih _
    | otherMessage k => exact ih _

lemma run_single_agent_agent_id (i : Nat) (b : AgentBehavior) :
    (run_single_agent i b).agent_id = i := by
  cases b with
  | importError e => rfl
  | raises e ty => rfl
  | events msgs => exact processMessages_agent_id i msgs []

lemma processMessages_status (i : Nat) (msgs : List SdkMessage) (acc : List String) :
    (processMessages i acc msgs).status = "success"
    ∨ (processMessages i acc msgs).status = "error"
    ∨ (processMessages i acc msgs).status = "unknown" := by
  induction msgs generalizing acc with
  | nil => left; rfl
  | cons m rest ih =>
    cases m with
    | resultMessage st r =>
      simp only [processMessages]
      split
      · left; rfl
      · split
        · right; left; rfl
        · right; right; rfl
    | textMessage c => exact ih _
    | otherMessage k => exact ih _

lemma run_single_agent_status (i : Nat) (b : AgentBehavior) :
    (run_single_agent i b).status = "success"
    ∨ (run_single_agent i b).status = "error"
    ∨ (run_single_agent i b).status = "unknown" := by
  cases b with
  | importError e => right; left; rfl
  | raises e ty => right; left; rfl
  | events msgs => exact processMessages_status i msgs []

lemma run_single_agent_failure_status (i : Nat) (b : AgentBehavior)
    (h : b.isFailure = true) : (run_single_agent i b).status = "error" := by
  cases b with
  | importError e => rfl
  | raises e ty => rfl
  | events msgs => simp [AgentBehavior.isFailure] at h

/-- Claim C9: for every streaming run that reaches its normal end, the final
event is the `complete` event and it carries the originally requested worker
count, whatever results were actually delivered and emitted. -/
theorem claim_C9 (prompt : String) (n : Nat)
    (polls : List (Option AgentResult)) (drained : List AgentResult) :
    (generateEvents prompt n polls drained).getLast? = some (.complete n) := by
  have h : generateEvents prompt n polls drained =
      (StreamEvent.start n (prompt.take 100) ::
        (streamLoop n 0 polls ++ drained.map .agentResult)) ++
        [StreamEvent.complete n] := by
    simp [generateEvents]
  rw [h, List.getLast?_concat]

/-- Claim C4 counterexample: with the credential unset (empty
`ANTHROPIC_API_KEY`), the streaming Dispatcher endpoint does not fail with a
configuration error — it dispatches the workers for this valid request. -/
theorem claim_C4_counterexample :
    orchestrate_stream "" (some ⟨some "list files", some (.jInt 2)⟩) =
      .dispatch "list files" 2 := by
  rfl

/-- Claim C4 (amended): when the credential is missing, the synchronous
Dispatcher endpoint never dispatches a worker (every request is rejected
before launch), while the streaming endpoint performs no credential check at
all — its behavior is identical with or without the credential. -/
theorem claim_C4_amended (d : Option RequestData) :
    (orchestrate "" d).isDispatch = false
    ∧ ∀ key : String, orchestrate_stream key d = orchestrate_stream "" d := by
  constructor
  · cases d with
    | none => rfl
    | some body =>
      simp only [orchestrate]
      split
      · rfl
      · split
        · rfl
        · split
          · rfl
          · simp [DispatchDecision.isDispatch]
  · intro key
    rfl

/-- Claim C3 counterexample: the JSON string `"5"` is not an integer, yet the
request is not rejected — `int()` coerces it and the Dispatcher proceeds to
launch 5 workers. -/
theorem claim_C3_counterexample :
    orchestrate "sk-key" (some ⟨some "list files", some (.jStr "5")⟩) =
      .dispatch "list files" 5 := by
  rfl

/-- Claim C3 (amended): a request whose `agent_count` fails `int()` coercion
or coerces outside `[1,10]` is rejected with a 400 invalid-input error by all
four endpoints before any worker is dispatched; but a non-integer value that
`int()` coerces into range (such as the string `"5"`) is accepted, so
rejection is by coerced value, not by JSON type. -/
theorem claim_C3_amended (key : String) (p : Option String) (c : JValue)
    (h : badCount c = true) :
    (∃ m, orchestrate key (some ⟨p, some c⟩) = .reject 400 m)
    ∧ (∃ m, orchestrate_stream key (some ⟨p, some c⟩) = .reject 400 m)
    ∧ (∀ b, ∃ m, submit_prompt (some ⟨p, some c⟩) b = .localError 400 m)
    ∧ (∃ m, submit_prompt_stream (some ⟨p, some c⟩) = .reject 400 m) := by
  unfold badCount at h
  refine ⟨?_, ?_, ?_, ?_⟩
  · by_cases hpp : pyStrip (p.getD "") = ""
    · exact ⟨"Prompt is required", by simp [orchestrate, hpp]⟩
    · cases hc : pyInt c with
      | none => exact ⟨"Invalid agent count", by simp [orchestrate, hpp, hc]⟩
      | some k =>
        rw [hc] at h
        have hk : k < 1 ∨ 10 < k := by simpa using h
        exact ⟨"Agent count must be between 1 and 10",
          by simp only [orchestrate, hpp, hc, if_neg, if_pos hk, Option.getD_some]; simp [hpp]⟩
  · by_cases hpp : pyStrip (p.getD "") = ""
    · exact ⟨"Prompt is required", by simp [orchestrate_stream, hpp]⟩
    · cases hc : pyInt c with
      | none => exact ⟨"Invalid agent count", by simp [orchestrate_stream, hpp, hc]⟩
      | some k =>
        rw [hc] at h
        have hk : k < 1 ∨ 10 < k := by simpa using h
        exact ⟨"Agent count must be between 1 and 10",
          by simp only [orchestrate_stream, hpp, hc, if_pos hk, Option.getD_some]; simp [hpp]⟩
  · intro b
    by_cases hpp : pyStrip (p.getD "") = ""
    · exact ⟨"Prompt is required", by simp [submit_prompt, hpp]⟩
    · cases hc : pyInt c with
      | none => exact ⟨"Invalid agent count", by simp [submit_prompt, hpp, hc]⟩
      | some k =>
        rw [hc] at h
        have hk : k < 1 ∨ 10 < k := by simpa using h
        exact ⟨"Agent count must be between 1 and 10",
          by simp only [submit_prompt, hpp, hc, if_pos hk, Option.getD_some]; simp [hpp]⟩
  · by_cases hpp : pyStrip (p.getD "") = ""
    · exact ⟨"Prompt is required", by simp [submit_prompt_stream, hpp]⟩
    · cases hc : pyInt c with
      | none => exact ⟨"Invalid agent count", by simp [submit_prompt_stream, hpp, hc]⟩
      | some k =>
        rw [hc] at h
        have hk : k < 1 ∨ 10 < k := by simpa using h
        exact ⟨"Agent count must be between 1 and 10",
          by simp only [submit_prompt_stream, hpp, hc, if_pos hk, Option.getD_some]; simp [hpp]⟩

/-- Witness for claim C3 (amended) at the concrete count 0. -/
theorem claim_C3_amended_witness :
    badCount (.jInt 0) = true
    ∧ ((∃ m, orchestrate "k" (some ⟨some "list files", some (.jInt 0)⟩) = .reject 400 m)
      ∧ (∃ m, orchestrate_stream "k" (some ⟨some "list files", some (.jInt 0)⟩) = .reject 400 m)
      ∧ (∀ b, ∃ m, submit_prompt (some ⟨some "list files", some (.jInt 0)⟩) b = .localError 400 m)
      ∧ (∃ m, submit_prompt_stream (some ⟨some "list files", some (.jInt 0)⟩) = .reject 400 m)) :=
  ⟨by decide, claim_C3_amended "k" (some "list files") (.jInt 0) (by decide)⟩

/-- Claim C10: a request whose body has a valid prompt but omits the
`agent_count` field is not rejected by any of the four POST endpoints — the
count defaults to 1 and the run proceeds exactly as if `agent_count = 1` had
been supplied. -/
theorem claim_C10 (key p : String) (hp : pyStrip p ≠ "") (hk : key ≠ "") :
    orchestrate key (some ⟨some p, none⟩) = .dispatch (pyStrip p) 1
    ∧ orchestrate_stream key (some ⟨some p, none⟩) = .dispatch (pyStrip p) 1
    ∧ (∀ b, submit_prompt (some ⟨some p, none⟩) b =
        submit_prompt (some ⟨some p, some (.jInt 1)⟩) b)
    ∧ (∀ s body, submit_prompt (some ⟨some p, none⟩) (.response s body) =
        .forwarded s body)
    ∧ submit_prompt_stream (some ⟨some p, none⟩) = .dispatch (pyStrip p) 1 := by
  refine ⟨?_, ?_, ?_, ?_, ?_⟩
  · simp [orchestrate, hp, hk, pyInt]
  · simp [orchestrate_stream, hp, pyInt]
  · intro b
    simp [submit_prompt, hp, pyInt]
  · intro s body
    simp [submit_prompt, hp, pyInt]
  · simp [submit_prompt_stream, hp, pyInt]

/-- Witness for claim C10 at a concrete request. -/
theorem claim_C10_witness :
    (pyStrip "list files" ≠ "" ∧ ("sk-key" : String) ≠ "")
    ∧ (orchestrate "sk-key" (some ⟨some "list files", none⟩) =
        .dispatch (pyStrip "list files") 1
      ∧ orchestrate_stream "sk-key" (some ⟨some "list files", none⟩) =
        .dispatch (pyStrip "list files") 1
      ∧ (∀ b, submit_prompt (some ⟨some "list files", none⟩) b =
          submit_prompt (some ⟨some "list files", some (.jInt 1)⟩) b)
      ∧ (∀ s body, submit_prompt (some ⟨some "list files", none⟩) (.response s body) =
          .forwarded s body)
      ∧ submit_prompt_stream (some ⟨some "list files", none⟩) =
        .dispatch (pyStrip "list files") 1) :=
  ⟨⟨by decide, by decide⟩, claim_C10 "sk-key" "list files" (by decide) (by decide)⟩

/-- Claim C7: for a validated non-streaming Relay request, a connection
failure maps to a 503 "backend unavailable" error, a timeout to a 504 "timed
out" error, and any other exception to a generic 500, all pairwise
distinguishable and none retried (one backend call, one mapped response). -/
theorem claim_C7 (p : String) (c : JValue) (hp : pyStrip p ≠ "")
    (hc : ∃ k, pyInt c = some k ∧ 1 ≤ k ∧ k ≤ 10) :
    submit_prompt (some ⟨some p, some c⟩) .connectionError =
      .transportError 503 "Could not connect to backend orchestrator"
    ∧ submit_prompt (some ⟨some p, some c⟩) .timeout =
      .transportError 504 "Request timed out"
    ∧ (∀ e, submit_prompt (some ⟨some p, some c⟩) (.otherError e) =
        .transportError 500 ("Unexpected error: " ++ e))
    ∧ (503 : Nat) ≠ 504 ∧ (503 : Nat) ≠ 500 ∧ (504 : Nat) ≠ 500 := by
  obtain ⟨k, hk, hk1, hk2⟩ := hc
  have hrange : ¬(k < 1 ∨ k > 10) := by omega
  refine ⟨?_, ?_, ?_, by decide, by decide, by decide⟩
  · simp [submit_prompt, hp, hk, hrange]
  · simp [submit_prompt, hp, hk, hrange]
  · intro e
    simp [submit_prompt, hp, hk, hrange]

/-- Witness for claim C7 at a concrete request. -/
theorem claim_C7_witness :
    (pyStrip "list files" ≠ ""
      ∧ ∃ k, pyInt (.jInt 2) = some k ∧ 1 ≤ k ∧ k ≤ 10)
    ∧ (submit_prompt (some ⟨some "list files", some (.jInt 2)⟩) .connectionError =
        .transportError 503 "Could not connect to backend orchestrator"
      ∧ submit_prompt (some ⟨some "list files", some (.jInt 2)⟩) .timeout =
        .transportError 504 "Request timed out"
      ∧ (∀ e, submit_prompt (some ⟨some "list files", some (.jInt 2)⟩) (.otherError e) =
          .transportError 500 ("Unexpected error: " ++ e))
      ∧ (503 : Nat) ≠ 504 ∧ (503 : Nat) ≠ 500 ∧ (504 : Nat) ≠ 500) :=
  ⟨⟨by decide, ⟨2, by decide, by decide, by decide⟩⟩,
    claim_C7 "list files" (.jInt 2) (by decide) ⟨2, by decide, by decide, by decide⟩⟩

/-! ### The event loop of `run_single_agent`, described by the first terminal
event of the stream -/

lemma processMessages_spec (i : Nat) (msgs : List SdkMessage) (acc : List String) :
    processMessages i acc msgs =
      match firstResultMessage msgs with
      | some (st, p) =>
        if st = "success" then ⟨i, "success", "Task completed successfully", .result p⟩
        else if st = "error" then ⟨i, "error", "Task failed: " ++ p, .error p⟩
        else ⟨i, "unknown", p, .subtype st⟩
      | none => ⟨i, "success", "Task completed", .messages (acc ++ textsBefore msgs)⟩ := by
  induction msgs generalizing acc with
  | nil => simp [processMessages, firstResultMessage, textsBefore]
  | cons m rest ih =>
    cases m with
    | resultMessage st r => rfl
    | textMessage c =>
      simp only [processMessages, firstResultMessage, textsBefore]
      rw [ih]
      cases firstResultMessage rest with
      | none => simp
      | some pr => rfl
    | otherMessage k =>
      simp only [processMessages, firstResultMessage, textsBefore]
      exact ih acc

/-- Claim C6: a worker's event stream is classified by its first terminal
(`ResultMessage`) event — subtype `success` yields `status=success` with
`details={result: payload}`, subtype `error` yields `status=error` with
`details={error: payload}`, any other subtype yields `status=unknown` with
`details={subtype: value}`, and a stream with no terminal event yields the
success fallback carrying the collected text messages; each case produces
exactly one result. -/
theorem claim_C6 (i : Nat) (msgs : List SdkMessage) :
    (∀ p, firstResultMessage msgs = some ("success", p) →
      run_single_agent i (.events msgs) =
        ⟨i, "success", "Task completed successfully", .result p⟩)
    ∧ (∀ p, firstResultMessage msgs = some ("error", p) →
      run_single_agent i (.events msgs) =
        ⟨i, "error", "Task failed: " ++ p, .error p⟩)
    ∧ (∀ st p, firstResultMessage msgs = some (st, p) →
      st ≠ "success" → st ≠ "error" →
      run_single_agent i (.events msgs) = ⟨i, "unknown", p, .subtype st⟩)
    ∧ (firstResultMessage msgs = none →
      run_single_agent i (.events msgs) =
        ⟨i, "success", "Task completed", .messages (textsBefore msgs)⟩) := by
  have base := processMessages_spec i msgs []
  refine ⟨?_, ?_, ?_, ?_⟩
  · intro p h
    rw [run_single_agent, base, h]
    simp
  · intro p h
    rw [run_single_agent, base, h]
    simp
  · intro st p h hs he
    rw [run_single_agent, base, h]
    simp [hs, he]
  · intro h
    rw [run_single_agent, base, h]
    simp

/-- Witness for claim C6 on four concrete event streams, one per case. -/
theorem claim_C6_witness :
    run_single_agent 1 (.events [.textMessage "a", .resultMessage "success" "ok"]) =
      ⟨1, "success", "Task completed successfully", .result "ok"⟩
    ∧ run_single_agent 2 (.events [.resultMessage "error" "boom"]) =
      ⟨2, "error", "Task failed: " ++ "boom", .error "boom"⟩
    ∧ run_single_agent 3 (.events [.resultMessage "cancelled" "stop"]) =
      ⟨3, "unknown", "stop", .subtype "cancelled"⟩
    ∧ run_single_agent 4 (.events [.textMessage "a", .otherMessage "System", .textMessage "b"]) =
      ⟨4, "success", "Task completed",
        .messages (textsBefore [.textMessage "a", .otherMessage "System", .textMessage "b"])⟩ :=
  ⟨(claim_C6 1 [.textMessage "a", .resultMessage "success" "ok"]).1 "ok" rfl,
   (claim_C6 2 [.resultMessage "error" "boom"]).2.1 "boom" rfl,
   (claim_C6 3 [.resultMessage "cancelled" "stop"]).2.2.1 "cancelled" "stop" rfl
     (by decide) (by decide),
   (claim_C6 4 [.textMessage "a", .otherMessage "System", .textMessage "b"]).2.2.2 rfl⟩

/-! ### Lemmas about the streaming generator's polling loop -/

lemma streamLoop_mem {n c : Nat} {polls : List (Option AgentResult)}
    {ev : StreamEvent} (h : ev ∈ streamLoop n c polls) :
    ∃ r, ev = .agentResult r ∧ some r ∈ polls := by
  induction polls generalizing c with
  | nil => simp [streamLoop] at h
  | cons p rest ih =>
    simp only [streamLoop] at h
    by_cases hlt : c < n
    · rw [if_pos hlt] at h
      cases p with
      | some r =>
        rcases List.mem_cons.mp h with h1 | h2
        · exact ⟨r, h1, List.mem_cons_self _ _⟩
        · obtain ⟨r', hr', hmem⟩ := ih h2
          exact ⟨r', hr', List.mem_cons_of_mem _ hmem⟩
      | none =>
        obtain ⟨r', hr', hmem⟩ := ih h
        exact ⟨r', hr', List.mem_cons_of_mem _ hmem⟩
    · rw [if_neg hlt] at h
      simp at h

/-- Claim C8: every `WorkerResult` present in a final synchronous `RunResult`
and every result carried by a streaming `agent_result` event has status
`success`, `error` or `unknown` — never `running` or anything else. -/
theorem claim_C8 (beh : Nat → AgentBehavior) (n : Nat) (arrival : List Nat)
    (prompt : String) (polls : List (Option AgentResult)) (drained : List AgentResult)
    (hpolls : ∀ r : AgentResult, some r ∈ polls → ∃ i b, r = run_single_agent i b)
    (hdrained : ∀ r ∈ drained, ∃ i b, r = run_single_agent i b) :
    (∀ r ∈ orchestrate_agents beh n arrival,
      r.status = "success" ∨ r.status = "error" ∨ r.status = "unknown")
    ∧ (∀ ev ∈ generateEvents prompt n polls drained, ∀ r, ev = .agentResult r →
        r.status = "success" ∨ r.status = "error" ∨ r.status = "unknown") := by
  constructor
  · intro r hr
    rw [orchestrate_agents, sortResults, List.mem_mergeSort] at hr
    obtain ⟨i, _, hri⟩ := List.mem_map.mp hr
    rw [← hri]
    exact run_single_agent_status i (beh i)
  · intro ev hev r hevr
    subst hevr
    rw [generateEvents] at hev
    rcases List.mem_cons.mp hev with h0 | h1
    · exact absurd h0 (by simp)
    · rcases List.mem_append.mp h1 with h2 | h3
      · rcases List.mem_append.mp h2 with h4 | h5
        · obtain ⟨r', hr', hmem⟩ := streamLoop_mem h4
          obtain ⟨i, b, hb⟩ := hpolls r' hmem
          have hrr : r = r' := by injection hr'
          rw [hrr, hb]
          exact run_single_agent_status i b
        · obtain ⟨r', hr'mem, heq⟩ := List.mem_map.mp h5
          obtain ⟨i, b, hb⟩ := hdrained r' hr'mem
          have hrr : r' = r := by injection heq
          rw [← hrr, hb]
          exact run_single_agent_status i b
      · simp at h3

/-- Witness for claim C8 on a concrete run: one success, one worker failure,
one delivered and one drained streamed result. -/
theorem claim_C8_witness :
    ((∀ r : AgentResult,
        some r ∈ [some (run_single_agent 1 (.events [])), none] →
        ∃ i b, r = run_single_agent i b)
      ∧ (∀ r ∈ [run_single_agent 2 (.importError "no sdk")],
          ∃ i b, r = run_single_agent i b))
    ∧ ((∀ r ∈ orchestrate_agents
          (fun i => if i = 1 then .events [] else .importError "no sdk") 2 [2, 1],
        r.status = "success" ∨ r.status = "error" ∨ r.status = "unknown")
      ∧ (∀ ev ∈ generateEvents "list files" 2
            [some (run_single_agent 1 (.events [])), none]
            [run_single_agent 2 (.importError "no sdk")],
          ∀ r, ev = .agentResult r →
          r.status = "success" ∨ r.status = "error" ∨ r.status = "unknown")) := by
  have hpolls : ∀ r : AgentResult,
      some r ∈ [some (run_single_agent 1 (.events [])), none] →
      ∃ i b, r = run_single_agent i b := by
    intro r hr
    rcases List.mem_cons.mp hr with h1 | h2
    · exact ⟨1, .events [], Option.some.inj h1⟩
    · simp at h2
  have hdrained : ∀ r ∈ [run_single_agent 2 (.importError "no sdk")],
      ∃ i b, r = run_single_agent i b := by
    intro r hr
    rcases List.mem_singleton.mp hr with h
    exact ⟨2, .importError "no sdk", h⟩
  exact ⟨⟨hpolls, hdrained⟩,
    claim_C8 (fun i => if i = 1 then .events [] else .importError "no sdk") 2 [2, 1]
      "list files" _ _ hpolls hdrained⟩

/-! ### Shape of the synchronous RunResult -/

/-- Claim C1: for a valid task (worker count in `[1,10]`), the synchronous
run returns exactly `n` results, their ids are exactly `1 .. n` in ascending
order, and no id repeats (the id sequence is strictly increasing), whatever
the workers do and in whatever order they complete. -/
theorem claim_C1 (behaviors : Nat → AgentBehavior) (n : Nat) (arrival : List Nat)
    (h1 : 1 ≤ n) (h2 : n ≤ 10) (hp : arrival.Perm (List.range' 1 n)) :
    (orchestrate_agents behaviors n arrival).length = n
    ∧ (orchestrate_agents behaviors n arrival).map AgentResult.agent_id =
        List.range' 1 n
    ∧ (orchestrate_agents behaviors n arrival).Pairwise
        (fun a b => a.agent_id < b.agent_id) := by
  have hperm : (orchestrate_agents behaviors n arrival).Perm
      (arrival.map (fun i => run_single_agent i (behaviors i))) := by
    rw [orchestrate_agents, sortResults]
    exact List.mergeSort_perm _ _
  have hids_map : arrival.map
      (fun i => (run_single_agent i (behaviors i)).agent_id) = arrival := by
    have hfn : (fun i => (run_single_agent i (behaviors i)).agent_id) =
        fun i : Nat => i := by
      funext i
      exact run_single_agent_agent_id i (behaviors i)
    rw [hfn]
    exact List.map_id' arrival
  have hids_perm : ((orchestrate_agents behaviors n arrival).map
      AgentResult.agent_id).Perm (List.range' 1 n) := by
    have hm := hperm.map AgentResult.agent_id
    rw [List.map_map] at hm
    have hcomp : (AgentResult.agent_id ∘ fun i => run_single_agent i (behaviors i)) =
        fun i => (run_single_agent i (behaviors i)).agent_id := rfl
    rw [hcomp, hids_map] at hm
    exact hm.trans hp
  have hsorted : (orchestrate_agents behaviors n arrival).Pairwise
      (fun a b => a.agent_id ≤ b.agent_id) := by
    have hs := @List.sorted_mergeSort AgentResult
      (fun a b : AgentResult => decide (a.agent_id ≤ b.agent_id))
      (fun a b c hab hbc => by
        simp only [decide_eq_true_eq] at hab hbc ⊢
        omega)
      (fun a b => by
        rcases Nat.le_total a.agent_id b.agent_id with h | h <;> simp [h])
      (arrival.map (fun i => run_single_agent i (behaviors i)))
    rw [orchestrate_agents, sortResults]
    exact hs.imp (fun h => by simpa using h)
  have hmap_sorted : ((orchestrate_agents behaviors n arrival).map
      AgentResult.agent_id).Pairwise (· ≤ ·) :=
    List.pairwise_map.mpr hsorted
  have hrange_sorted : (List.range' 1 n).Pairwise
      (fun a b : Nat => a ≤ b) := List.pairwise_le_range' 1 n
  have heq : (orchestrate_agents behaviors n arrival).map AgentResult.agent_id =
      List.range' 1 n :=
    List.eq_of_perm_of_sorted hids_perm hmap_sorted hrange_sorted
  refine ⟨?_, heq, ?_⟩
  · have hl := congrArg List.length heq
    simpa using hl
  · have hlt : (List.range' 1 n).Pairwise (fun a b : Nat => a < b) :=
      List.pairwise_lt_range' 1 n
    rw [← heq] at hlt
    exact List.pairwise_map.mp hlt

/-- Witness for claim C1: two workers completing in reverse order. -/
theorem claim_C1_witness :
    ((1 : Nat) ≤ 2 ∧ (2 : Nat) ≤ 10 ∧ [2, 1].Perm (List.range' 1 2))
    ∧ ((orchestrate_agents (fun _ => .events []) 2 [2, 1]).length = 2
      ∧ (orchestrate_agents (fun _ => .events []) 2 [2, 1]).map
          AgentResult.agent_id = List.range' 1 2
      ∧ (orchestrate_agents (fun _ => .events []) 2 [2, 1]).Pairwise
          (fun a b => a.agent_id < b.agent_id)) :=
  ⟨⟨by decide, by decide, by decide⟩,
    claim_C1 (fun _ => .events []) 2 [2, 1] (by decide) (by decide) (by decide)⟩

/-- Claim C5: a failing worker is recorded as its own error-status result;
the run still returns `n` results, every other worker's result is exactly
what it would have been in the run without the failure, and the run is not
aborted. -/
theorem claim_C5 (beh beh' : Nat → AgentBehavior) (n j : Nat) (arrival : List Nat)
    (hp : arrival.Perm (List.range' 1 n)) (hj1 : 1 ≤ j) (hj2 : j ≤ n)
    (hfail : (beh' j).isFailure = true)
    (hagree : ∀ i, i ≠ j → beh' i = beh i) :
    (orchestrate_agents beh' n arrival).length = n
    ∧ (∀ r ∈ orchestrate_agents beh' n arrival, r.agent_id ≠ j →
        r = run_single_agent r.agent_id (beh r.agent_id))
    ∧ (∃ r ∈ orchestrate_agents beh' n arrival,
        r.agent_id = j ∧ r.status = "error") := by
  have hperm : (orchestrate_agents beh' n arrival).Perm
      (arrival.map (fun i => run_single_agent i (beh' i))) := by
    rw [orchestrate_agents, sortResults]
    exact List.mergeSort_perm _ _
  refine ⟨?_, ?_, ?_⟩
  · rw [hperm.length_eq, List.length_map, hp.length_eq, List.length_range']
  · intro r hr hrj
    rw [orchestrate_agents, sortResults, List.mem_mergeSort] at hr
    obtain ⟨i, hi, hri⟩ := List.mem_map.mp hr
    have hid : r.agent_id = i := by
      rw [← hri]
      exact run_single_agent_agent_id i (beh' i)
    have hij : i ≠ j := by
      rw [← hid]
      exact hrj
    rw [hid, ← hagree i hij]
    exact hri.symm
  · have hjmem : j ∈ arrival := by
      rw [hp.mem_iff, List.mem_range'_1]
      omega
    refine ⟨run_single_agent j (beh' j), ?_,
      run_single_agent_agent_id j (beh' j),
      run_single_agent_failure_status j (beh' j) hfail⟩
    rw [orchestrate_agents, sortResults, List.mem_mergeSort]
    exact List.mem_map.mpr ⟨j, hjmem, rfl⟩

/-- Witness for claim C5: worker 2 of 2 hits a setup failure while worker 1
succeeds. -/
theorem claim_C5_witness :
    ([1, 2].Perm (List.range' 1 2) ∧ (1 : Nat) ≤ 2 ∧ (2 : Nat) ≤ 2
      ∧ ((fun i => if i = 2 then AgentBehavior.importError "no sdk"
          else .events []) 2).isFailure = true)
    ∧ ((orchestrate_agents
          (fun i => if i = 2 then .importError "no sdk" else .events [])
          2 [1, 2]).length = 2
      ∧ (∀ r ∈ orchestrate_agents
            (fun i => if i = 2 then .importError "no sdk" else .events [])
            2 [1, 2], r.agent_id ≠ 2 →
          r = run_single_agent r.agent_id ((fun _ => AgentBehavior.events [])
            r.agent_id))
      ∧ (∃ r ∈ orchestrate_agents
            (fun i => if i = 2 then .importError "no sdk" else .events [])
            2 [1, 2], r.agent_id = 2 ∧ r.status = "error")) :=
  ⟨⟨by decide, by decide, by decide, by decide⟩,
    claim_C5 (fun _ => .events [])
      (fun i => if i = 2 then .importError "no sdk" else .events [])
      2 2 [1, 2] (by decide) (by decide) (by decide) (by decide)
      (fun i hi => if_neg hi)⟩

lemma streamLoop_shape (n c : Nat) (polls : List (Option AgentResult)) :
    ∃ rs : List AgentResult,
      streamLoop n c polls = rs.map StreamEvent.agentResult
      ∧ rs.length ≤ countSome polls := by
  induction polls generalizing c with
  | nil => exact ⟨[], rfl, Nat.zero_le _⟩
  | cons p rest ih =>
    simp only [streamLoop]
    by_cases hlt : c < n
    · rw [if_pos hlt]
      cases p with
      | some r =>
        obtain ⟨rs, hmap, hlen⟩ := ih (c + 1)
        refine ⟨r :: rs, by rw [List.map_cons, hmap], ?_⟩
        have hcount : countSome (some r :: rest) = countSome rest + 1 := by
          simp [countSome, List.countP_cons]
        rw [hcount, List.length_cons]
        omega
      | none =>
        obtain ⟨rs, hmap, hlen⟩ := ih c
        refine ⟨rs, hmap, ?_⟩
        have hcount : countSome (none :: rest) = countSome rest := by
          simp [countSome, List.countP_cons]
        rw [hcount]
        exact hlen
    · rw [if_neg hlt]
      exact ⟨[], rfl, Nat.zero_le _⟩

lemma generateEvents_eq (prompt : String) (n : Nat)
    (polls : List (Option AgentResult)) (drained : List AgentResult) :
    ∃ rs : List AgentResult,
      generateEvents prompt n polls drained =
        .start n (prompt.take 100) ::
          (rs.map StreamEvent.agentResult ++ drained.map .agentResult ++
            [.complete n])
      ∧ rs.length ≤ countSome polls := by
  obtain ⟨rs, hmap, hlen⟩ := streamLoop_shape n 0 polls
  exact ⟨rs, by rw [generateEvents, hmap], hlen⟩

lemma countP_comp_isStart (l : List AgentResult) :
    List.countP (StreamEvent.isStart ∘ StreamEvent.agentResult) l = 0 := by
  simp [Function.comp, StreamEvent.isStart]

lemma countP_comp_isComplete (l : List AgentResult) :
    List.countP (StreamEvent.isComplete ∘ StreamEvent.agentResult) l = 0 := by
  simp [Function.comp, StreamEvent.isComplete]

lemma countP_comp_isError (l : List AgentResult) :
    List.countP (StreamEvent.isError ∘ StreamEvent.agentResult) l = 0 := by
  simp [Function.comp, StreamEvent.isError]

lemma countP_comp_isAgentResult (l : List AgentResult) :
    List.countP (StreamEvent.isAgentResult ∘ StreamEvent.agentResult) l =
      l.length := by
  simp [Function.comp, StreamEvent.isAgentResult]

/-- Claim C2: a fault-free streamed run is exactly one `start` event first,
then at most `n` `agent_result` events, then exactly one `complete` event
last, with no `error` event; a run hit by a fatal fault after `k` events is
that same prefix terminated by a single final `error` event (still at most
one `start`, one `complete`, `n` agent results, and `start` first whenever
anything precedes the error). -/
theorem claim_C2 (prompt : String) (n : Nat)
    (polls : List (Option AgentResult)) (drained : List AgentResult)
    (h : countSome polls + drained.length ≤ n) :
    ((generateEvents prompt n polls drained).head? =
        some (.start n (prompt.take 100))
      ∧ (generateEvents prompt n polls drained).getLast? = some (.complete n)
      ∧ (generateEvents prompt n polls drained).countP StreamEvent.isStart = 1
      ∧ (generateEvents prompt n polls drained).countP StreamEvent.isComplete = 1
      ∧ (generateEvents prompt n polls drained).countP StreamEvent.isError = 0
      ∧ (generateEvents prompt n polls drained).countP StreamEvent.isAgentResult ≤ n)
    ∧ (∀ k e,
        (generateEventsFaulted prompt n polls drained k e).getLast? =
          some (.error e)
        ∧ (generateEventsFaulted prompt n polls drained k e).countP
            StreamEvent.isError = 1
        ∧ (generateEventsFaulted prompt n polls drained k e).countP
            StreamEvent.isStart ≤ 1
        ∧ (generateEventsFaulted prompt n polls drained k e).countP
            StreamEvent.isComplete ≤ 1
        ∧ (generateEventsFaulted prompt n polls drained k e).countP
            StreamEvent.isAgentResult ≤ n
        ∧ (0 < k →
            (generateEventsFaulted prompt n polls drained k e).head? =
              some (.start n (prompt.take 100)))) := by
  obtain ⟨rs, hevs, hlen⟩ := generateEvents_eq prompt n polls drained
  have hstart : (generateEvents prompt n polls drained).countP
      StreamEvent.isStart = 1 := by
    rw [hevs]
    simp [List.countP_cons, List.countP_append, List.countP_map,
      countP_comp_isStart, StreamEvent.isStart]
  have hcomplete : (generateEvents prompt n polls drained).countP
      StreamEvent.isComplete = 1 := by
    rw [hevs]
    simp [List.countP_cons, List.countP_append, List.countP_map,
      countP_comp_isComplete, StreamEvent.isComplete]
  have herror : (generateEvents prompt n polls drained).countP
      StreamEvent.isError = 0 := by
    rw [hevs]
    simp [List.countP_cons, List.countP_append, List.countP_map,
      countP_comp_isError, StreamEvent.isError]
  have hagent : (generateEvents prompt n polls drained).countP
      StreamEvent.isAgentResult ≤ n := by
    rw [hevs]
    simp [List.countP_cons, List.countP_append, List.countP_map,
      countP_comp_isAgentResult, StreamEvent.isAgentResult]
    omega
  have hlast : (generateEvents prompt n polls drained).getLast? =
      some (.complete n) := by
    rw [hevs, show StreamEvent.start n (prompt.take 100) ::
        (rs.map StreamEvent.agentResult ++ drained.map .agentResult ++
          [.complete n]) =
      (StreamEvent.start n (prompt.take 100) ::
        (rs.map StreamEvent.agentResult ++ drained.map .agentResult)) ++
          [StreamEvent.complete n] by simp]
    exact List.getLast?_concat _
  refine ⟨⟨by rw [hevs]; rfl, hlast, hstart, hcomplete, herror, hagent⟩, ?_⟩
  intro k e
  have htake : List.Sublist ((generateEvents prompt n polls drained).take k)
      (generateEvents prompt n polls drained) := List.take_sublist k _
  refine ⟨List.getLast?_concat _, ?_, ?_, ?_, ?_, ?_⟩
  · rw [generateEventsFaulted, List.countP_append]
    have h0 : ((generateEvents prompt n polls drained).take k).countP
        StreamEvent.isError = 0 :=
      Nat.le_zero.mp (herror ▸ htake.countP_le _)
    rw [h0]
    rfl
  · rw [generateEventsFaulted, List.countP_append]
    have hle : ((generateEvents prompt n polls drained).take k).countP
        StreamEvent.isStart ≤ 1 := hstart ▸ htake.countP_le _
    have : ([StreamEvent.error e]).countP StreamEvent.isStart = 0 := rfl
    omega
  · rw [generateEventsFaulted, List.countP_append]
    have hle : ((generateEvents prompt n polls drained).take k).countP
        StreamEvent.isComplete ≤ 1 := hcomplete ▸ htake.countP_le _
    have : ([StreamEvent.error e]).countP StreamEvent.isComplete = 0 := rfl
    omega
  · rw [generateEventsFaulted, List.countP_append]
    have hle : ((generateEvents prompt n polls drained).take k).countP
        StreamEvent.isAgentResult ≤ n :=
      Nat.le_trans (htake.countP_le _) hagent
    have : ([StreamEvent.error e]).countP StreamEvent.isAgentResult = 0 := rfl
    omega
  · intro hk
    obtain ⟨k', rfl⟩ : ∃ k', k = k' + 1 :=
      ⟨k - 1, (Nat.succ_pred_eq_of_pos hk).symm⟩
    rw [generateEventsFaulted, hevs, List.take_succ_cons, List.cons_append]
    rfl

/-- Witness for claim C2: one worker delivering one result through the
queue. -/
theorem claim_C2_witness :
    (countSome [some (run_single_agent 1 (.events []))] +
      ([] : List AgentResult).length ≤ 1)
    ∧ (((generateEvents "list files" 1
          [some (run_single_agent 1 (.events []))] []).head? =
        some (.start 1 ("list files".take 100))
      ∧ (generateEvents "list files" 1
          [some (run_single_agent 1 (.events []))] []).getLast? =
        some (.complete 1)
      ∧ (generateEvents "list files" 1
          [some (run_single_agent 1 (.events []))] []).countP
          StreamEvent.isStart = 1
      ∧ (generateEvents "list files" 1
          [some (run_single_agent 1 (.events []))] []).countP
          StreamEvent.isComplete = 1
      ∧ (generateEvents "list files" 1
          [some (run_single_agent 1 (.events []))] []).countP
          StreamEvent.isError = 0
      ∧ (generateEvents "list files" 1
          [some (run_single_agent 1 (.events []))] []).countP
          StreamEvent.isAgentResult ≤ 1)
    ∧ (∀ k e,
        (generateEventsFaulted "list files" 1
            [some (run_single_agent 1 (.events []))] [] k e).getLast? =
          some (.error e)
        ∧ (generateEventsFaulted "list files" 1
            [some (run_single_agent 1 (.events []))] [] k e).countP
            StreamEvent.isError = 1
        ∧ (generateEventsFaulted "list files" 1
            [some (run_single_agent 1 (.events []))] [] k e).countP
            StreamEvent.isStart ≤ 1
        ∧ (generateEventsFaulted "list files" 1
            [some (run_single_agent 1 (.events []))] [] k e).countP
            StreamEvent.isComplete ≤ 1
        ∧ (generateEventsFaulted "list files" 1
            [some (run_single_agent 1 (.events []))] [] k e).countP
            StreamEvent.isAgentResult ≤ 1
        ∧ (0 < k →
            (generateEventsFaulted "list files" 1
                [some (run_single_agent 1 (.events []))] [] k e).head? =
              some (.start 1 ("list files".take 100))))) :=
  ⟨by decide,
    claim_C2 "list files" 1 [some (run_single_agent 1 (.events []))] []
      (by decide)⟩

end ClaudeMcp
